import Mathlib

/-!
Shallow embedding of the ozla/hrtester repository (Go), covering the parts of
the Tester service and the shared data model that the verified properties
refer to: the TestResult record and its form-value encoding, durations and
pace parsing, request-template header parsing, the POST /test admission
handler, the results-channel capacity, the worker spin-up delay, and the
worker request-template selection loop.

Go machine integers are modelled as Nat/Int with explicit `% 2 ^ w` where the
source performs fixed-width arithmetic; Go `panic` is modelled by `Option`
(`none` = fault); fallible parsing returns `Except String _` as the source
returns `error`.
-/

namespace HRTester

/-! ### Durations (internal/shared, `type Duration time.Duration`)

Go `time.Duration` is an `int64` count of nanoseconds. -/

/-- A Go `time.Duration` / `shared.Duration`: a signed nanosecond count. -/
abbrev GoDuration := Int

/-- `Duration.Milliseconds()`: nanoseconds divided by 10^6, Go integer
division truncates toward zero. -/
def durationMilliseconds (d : GoDuration) : Int := d.tdiv 1000000

/-- `Duration.String()`: `strconv.FormatInt(ms, 10) + "ms"`. -/
def durationString (d : GoDuration) : String := (durationMilliseconds d).repr ++ "ms"

/-! ### TestResult (internal/shared)

The source declares `type TestResult [9]string` indexed by the constants
`trRequestTime .. trTimedOut`; we model the array as a structure with one
field per index, in the declared order. -/

/-- The ordered attribute names of the nine TestResult columns. -/
def attrNames : List String :=
  ["ReqTime", "TestName", "ReqID", "ReqNum", "ReqMethod", "ReqPath",
   "RespCode", "RoundDuration", "TimedOut"]

/-- `type TestResult [9]string`, one field per `tr*` index constant. -/
structure TestResult where
  reqTime : String
  testName : String
  reqID : String
  reqNum : String
  reqMethod : String
  reqPath : String
  respCode : String
  roundDuration : String
  timedOut : String
deriving Repr, DecidableEq

/-- The zero value of `TestResult` (`var tRes shared.TestResult`): nine
empty strings. -/
def TestResult.empty : TestResult := ⟨"", "", "", "", "", "", "", "", ""⟩

/-- `SetRequestTime` stores `t.Format(time.DateTime)`; we take the already
formatted text. -/
def TestResult.setRequestTime (r : TestResult) (t : String) : TestResult :=
  { r with reqTime := t }

def TestResult.setTestName (r : TestResult) (name : String) : TestResult :=
  { r with testName := name }

/-- `SetRequestID` stores `id.String()`; we take the UUID text. -/
def TestResult.setRequestID (r : TestResult) (id : String) : TestResult :=
  { r with reqID := id }

/-- `SetRequestNum` stores `strconv.FormatInt(int64(num), 10)`. The
`uint64 → int64` cast changes the value only for `num ≥ 2^63`; we model the
counter as a `Nat` below that bound. -/
def TestResult.setRequestNum (r : TestResult) (num : Nat) : TestResult :=
  { r with reqNum := Nat.repr num }

def TestResult.setRequesMethod (r : TestResult) (method : String) : TestResult :=
  { r with reqMethod := method }

def TestResult.setRequestPath (r : TestResult) (path : String) : TestResult :=
  { r with reqPath := path }

/-- `SetResponseCode` stores `strconv.Itoa(code)`; HTTP status codes are
non-negative. -/
def TestResult.setResponseCode (r : TestResult) (code : Nat) : TestResult :=
  { r with respCode := Nat.repr code }

/-- `SetRoundDuration` stores `d.String()`. -/
def TestResult.setRoundDuration (r : TestResult) (d : GoDuration) : TestResult :=
  { r with roundDuration := durationString d }

/-- `SetTimedOut` stores the literal `"true"` / `"false"`. -/
def TestResult.setTimedOut (r : TestResult) (v : Bool) : TestResult :=
  { r with timedOut := if v then "true" else "false" }

/-! ### url.Values

Go `url.Values` is a `map[string][]string`; `Get` returns the first value or
`""`; `Set` replaces the slice with a singleton; `Add` appends. -/

/-- `url.Values`: a total map from key to value slice (missing key = `[]`). -/
def Values := String → List String

/-- An empty `url.Values` map. -/
def Values.empty : Values := fun _ => []

/-- `Values.Set k v`: replace the slice at `k` with `[v]`. -/
def Values.set (vs : Values) (k v : String) : Values :=
  fun q => if q = k then [v] else vs q

/-- `Values.Add k v`: append `v` to the slice at `k`. -/
def Values.add (vs : Values) (k v : String) : Values :=
  fun q => if q = k then vs q ++ [v] else vs q

/-- `Values.Get k`: first element of the slice at `k`, `""` when absent. -/
def Values.get (vs : Values) (k : String) : String := (vs k).headD ""

/-- `NewTestResult(vs)`: `for i, n := range attrNames { r[i] = vs.Get(n) }`,
unrolled over the nine attribute names in order. -/
def newTestResult (vs : Values) : TestResult :=
  ⟨Values.get vs "ReqTime", Values.get vs "TestName", Values.get vs "ReqID",
   Values.get vs "ReqNum", Values.get vs "ReqMethod", Values.get vs "ReqPath",
   Values.get vs "RespCode", Values.get vs "RoundDuration", Values.get vs "TimedOut"⟩

/-- `TestResult.URLValues()`: `m := make(url.Values); for i, v := range
attrNames { m.Set(v, r[i]) }`, unrolled in order. -/
def TestResult.urlValues (r : TestResult) : Values :=
  ((((((((Values.empty.set "ReqTime" r.reqTime).set
    "TestName" r.testName).set
    "ReqID" r.reqID).set
    "ReqNum" r.reqNum).set
    "ReqMethod" r.reqMethod).set
    "ReqPath" r.reqPath).set
    "RespCode" r.respCode).set
    "RoundDuration" r.roundDuration).set
    "TimedOut" r.timedOut

example : (TestResult.empty.setTimedOut true).timedOut = "true" := rfl
example : (TestResult.urlValues TestResult.empty) "ReqTime" = [""] := rfl
example : (TestResult.urlValues TestResult.empty) "Other" = [] := rfl

/-- C9: for a form-value map in which each of the nine attribute keys holds a
single value, URLValues ∘ NewTestResult restores the map on those nine keys. -/
theorem C9_testResult_roundtrip (vs : Values)
    (h : ∀ k, k ∈ attrNames → ∃ v, vs k = [v]) :
    ∀ k, k ∈ attrNames → (newTestResult vs).urlValues k = vs k := by
  intro k hk
  simp only [attrNames, List.mem_cons, List.not_mem_nil, or_false] at hk
  rcases hk with h1 | h1 | h1 | h1 | h1 | h1 | h1 | h1 | h1 <;> subst h1 <;>
    [obtain ⟨v, hv⟩ := h "ReqTime" (by simp [attrNames]);
     obtain ⟨v, hv⟩ := h "TestName" (by simp [attrNames]);
     obtain ⟨v, hv⟩ := h "ReqID" (by simp [attrNames]);
     obtain ⟨v, hv⟩ := h "ReqNum" (by simp [attrNames]);
     obtain ⟨v, hv⟩ := h "ReqMethod" (by simp [attrNames]);
     obtain ⟨v, hv⟩ := h "ReqPath" (by simp [attrNames]);
     obtain ⟨v, hv⟩ := h "RespCode" (by simp [attrNames]);
     obtain ⟨v, hv⟩ := h "RoundDuration" (by simp [attrNames]);
     obtain ⟨v, hv⟩ := h "TimedOut" (by simp [attrNames])] <;>
  · show [Values.get vs _] = vs _
    rw [Values.get, hv]
    rfl

/-- C9 witness: the round-trip at a concrete single-valued map. -/
theorem C9_testResult_roundtrip_witness :
    (newTestResult (fun _ => ["x"])).urlValues "ReqPath" = ["x"] :=
  C9_testResult_roundtrip (fun _ => ["x"])
    (fun _ _ => ⟨"x", rfl⟩) "ReqPath" (by simp [attrNames])

/-! ### pace (internal/tester, `type pace uint16`)

`pace.UnmarshalJSON` checks the suffix `rps`/`rpm`/`rph`, splits the text as
`s[:len(s)-3]` / `s[len(s)-3:]` (byte slicing; identical to character
slicing on the ASCII inputs the suffix check admits), parses the value with
`strconv.ParseUint(v, 10, 16)`, and converts:
`rph` → `pace(math.Round(float64(v)/60))`, `rpm` → `pace(v)`,
`rps` → `pace(v*60)` where the `uint64 → uint16` conversion truncates
modulo 2^16. For `v ≤ 65535`, `math.Round(float64(v)/60)` (round half away
from zero) equals the exact `(v + 30) / 60` in integers: `float64` holds
these magnitudes exactly at ties and within less than the distance to a tie
otherwise. -/

/-- `strconv.ParseUint(s, 10, 16)`: `none` on empty text, any non-digit
character, or a value outside `uint16` range. -/
def parseUint16 (s : String) : Option Nat :=
  if s.data = [] then none
  else if s.data.all Char.isDigit then
    let v := s.data.foldl (fun a c => a * 10 + (c.toNat - 48)) 0
    if v < 65536 then some v else none
  else none

/-- The conversion applied per unit suffix in `pace.UnmarshalJSON`; the
final catch-all is unreachable (the caller only passes the three listed
suffixes). -/
def paceFromValue (u : String) (v : Nat) : Nat :=
  match u with
  | "rph" => (v + 30) / 60
  | "rpm" => v
  | "rps" => (v * 60) % 65536
  | _ => 0

/-- `pace.UnmarshalJSON` on the content of the JSON string. -/
def paceUnmarshal (s : String) : Except String Nat :=
  let cs := s.data
  let u : String := ⟨cs.drop (cs.length - 3)⟩
  let v : String := ⟨cs.take (cs.length - 3)⟩
  if u = "rps" ∨ u = "rpm" ∨ u = "rph" then
    match parseUint16 v with
    | some n => .ok (paceFromValue u n)
    | none => .error ("invalid pace value: " ++ s)
  else
    .error "invalid duration format: must end with rps, rpm, or rph"

/-- `pace.MarshalJSON`: the quoted text `"<n>rpm"`. -/
def paceMarshalJSON (p : Nat) : String := "\"" ++ Nat.repr p ++ "rpm\""

/-- `pace.String()`: `strconv.FormatUint(uint64(p), 10) + "rpm"`. -/
def paceString (p : Nat) : String := Nat.repr p ++ "rpm"

example : paceUnmarshal "60rpm" = .ok 60 := rfl
example : paceUnmarshal "1200rps" = .ok 6464 := rfl
example : paceUnmarshal "90rp" = .error "invalid duration format: must end with rps, rpm, or rph" := rfl
example : paceUnmarshal "rps" = .error "invalid pace value: rps" := rfl

/-- C5 counterexample: parsing `"1200rps"` does not yield `1200 × 60 = 72000`;
the `uint64 → uint16` conversion truncates the product to `6464`. -/
theorem C5_pace_counterexample :
    paceUnmarshal "1200rps" = Except.ok 6464 ∧ (6464 : Nat) ≠ 1200 * 60 :=
  ⟨rfl, by decide⟩

/-- C5 (amended): `Xrpm` is identity and `Xrph` divides by 60 rounding to
nearest (the result is within 30 of `X` when scaled back by 60); `Xrps`
stores `(X × 60) mod 2^16`, which equals `X × 60` exactly when that product
fits in 16 bits (`X ≤ 1092`); the four concrete examples parse as the spec
lists; serialization always emits the quoted text `"<n>rpm"`. -/
theorem C5_pace_parsing :
    paceUnmarshal "60rpm" = Except.ok 60 ∧
    paceUnmarshal "1rps" = Except.ok 60 ∧
    paceUnmarshal "3600rph" = Except.ok 60 ∧
    paceUnmarshal "120rph" = Except.ok 2 ∧
    (∀ v, paceFromValue "rpm" v = v) ∧
    (∀ v, v ≤ 65535 → (paceFromValue "rps" v = v * 60 ↔ v * 60 < 65536)) ∧
    (∀ v, 60 * paceFromValue "rph" v ≤ v + 30 ∧ v ≤ 60 * paceFromValue "rph" v + 30) ∧
    (∀ p, (paceMarshalJSON p).data =
      '\"' :: ((Nat.repr p).data ++ ('r' :: 'p' :: 'm' :: '\"' :: []))) := by
  refine ⟨rfl, rfl, rfl, rfl, fun v => rfl, fun v _ => ?_, fun v => ?_, fun p => ?_⟩
  · constructor
    · intro h
      by_contra h2
      push_neg at h2
      have := Nat.mod_lt (v * 60) (show 0 < 65536 by norm_num)
      simp only [paceFromValue] at h
      omega
    · intro h
      simp only [paceFromValue]
      exact Nat.mod_eq_of_lt h
  · have h1 := Nat.div_add_mod (v + 30) 60
    have h2 := Nat.mod_lt (v + 30) (show 0 < 60 by norm_num)
    simp only [paceFromValue]
    omega
  · have h1 : ("\"" : String).data = ['\"'] := rfl
    have h2 : ("rpm\"" : String).data = ['r', 'p', 'm', '\"'] := rfl
    simp [paceMarshalJSON, String.data_append, h1, h2]

/-- C5 witness: the amended theorem applied at `X = 1200`, where the product
overflows, and at `X = 90` for the rph rounding bounds. -/
theorem C5_pace_parsing_witness :
    (paceFromValue "rps" 1200 = 1200 * 60 ↔ 1200 * 60 < 65536) ∧
    (60 * paceFromValue "rph" 90 ≤ 90 + 30 ∧ 90 ≤ 60 * paceFromValue "rph" 90 + 30) :=
  ⟨C5_pace_parsing.2.2.2.2.2.1 1200 (by norm_num),
   C5_pace_parsing.2.2.2.2.2.2.1 90⟩

/-! ### Request-template header parsing (internal/tester, `request.UnmarshalJSON`)

Each header key maps to a raw JSON value, decoded into `any`; the type
switch handles `string` (Set) and `[]any` (Add per element, error on a
non-string element) and has no default case, so any other decoded type
falls through with the header silently skipped. Go canonicalizes MIME
header keys in `Set`/`Add`; key canonicalization is orthogonal to the
property and not modelled. -/

/-- The decoded form of a JSON value (`any` after `json.Unmarshal`): Go
yields `string`, `float64`, `bool`, `nil`, `[]any`, or `map[string]any`.
The numeric payload is irrelevant to header handling. -/
inductive JSONVal where
  | str (s : String)
  | num (x : Int)
  | bool (b : Bool)
  | null
  | arr (elems : List JSONVal)
  | obj

/-- `http.Header`: a `map[string][]string` (missing key = `[]`). -/
def Header := String → List String

/-- An empty `http.Header`. -/
def Header.empty : Header := fun _ => []

/-- `Header.Set k v`: replace the slice at `k` with `[v]`. -/
def Header.set (h : Header) (k v : String) : Header :=
  fun q => if q = k then [v] else h q

/-- `Header.Add k v`: append `v` to the slice at `k`. -/
def Header.add (h : Header) (k v : String) : Header :=
  fun q => if q = k then h q ++ [v] else h q

/-- The `[]any` arm of the type switch: `r.Header.Add(k, s)` per string
element, `error` at the first non-string element. -/
def headerAddStrings (h : Header) (k : String) : List JSONVal → Except String Header
  | [] => .ok h
  | .str s :: rest => headerAddStrings (h.add k s) k rest
  | _ :: _ => .error ("invalid header " ++ k ++ " value")

/-- The body of the header loop in `request.UnmarshalJSON` for one key `k`
with decoded value `v`: `string` → Set, `[]any` → Add per element, any
other type → no switch case matches and the value is skipped. -/
def applyHeaderValue (h : Header) (k : String) (v : JSONVal) : Except String Header :=
  match v with
  | .str s => .ok (h.set k s)
  | .arr elems => headerAddStrings h k elems
  | _ => .ok h

/-- `headerAddStrings` over an all-string list appends the strings, in array
order, to the values at the key and leaves other keys unchanged. -/
theorem headerAddStrings_map_str (k : String) (ss : List String) (h : Header) :
    headerAddStrings h k (ss.map JSONVal.str) =
      .ok (fun q => if q = k then h q ++ ss else h q) := by
  induction ss generalizing h with
  | nil =>
    show Except.ok h = _
    exact congrArg Except.ok (funext fun q => by by_cases hq : q = k <;> simp [hq])
  | cons s tl ih =>
    show headerAddStrings (h.add k s) k (tl.map JSONVal.str) = _
    rw [ih]
    refine congrArg Except.ok (funext fun q => ?_)
    by_cases hq : q = k <;> simp [hq, Header.add]

/-- C6 counterexample: a numeric header value does not make parsing fail —
the switch has no default case, so the value is silently skipped and the
header map is returned unchanged. -/
theorem C6_header_counterexample :
    applyHeaderValue Header.empty "X-Test" (JSONVal.num 5) = Except.ok Header.empty :=
  rfl

/-- C6 (amended): a JSON string becomes a single-valued header (Set); an
array of strings becomes a multi-valued header whose values keep the array
order (Add per element), e.g. X-Test: [a,b,c] yields ordered values
[a,b,c]; an array containing a non-string element fails with an error
naming the header; but a value of any other JSON type (number, boolean,
object, null) is silently ignored — parsing succeeds and the header is
simply absent. -/
theorem C6_header_parsing :
    (∀ (h : Header) (k s : String),
        applyHeaderValue h k (JSONVal.str s) = .ok (Header.set h k s)) ∧
    (∀ (h : Header) (k : String) (ss : List String),
        ∃ h2, applyHeaderValue h k (JSONVal.arr (ss.map JSONVal.str)) = .ok h2 ∧
        h2 k = h k ++ ss ∧ ∀ q, q ≠ k → h2 q = h q) ∧
    (∀ (h : Header) (k : String) (ss : List String) (v : JSONVal)
        (rest : List JSONVal), (∀ s, v ≠ JSONVal.str s) →
        applyHeaderValue h k (JSONVal.arr (ss.map JSONVal.str ++ v :: rest)) =
          .error ("invalid header " ++ k ++ " value")) ∧
    (∀ (h : Header) (k : String) (v : JSONVal),
        (∀ s, v ≠ JSONVal.str s) → (∀ l, v ≠ JSONVal.arr l) →
        applyHeaderValue h k v = .ok h) ∧
    (∃ h2, applyHeaderValue Header.empty "X-Test"
        (JSONVal.arr [JSONVal.str "a", JSONVal.str "b", JSONVal.str "c"]) = .ok h2 ∧
      h2 "X-Test" = ["a", "b", "c"]) := by
  refine ⟨fun h k s => rfl, fun (h : Header) (k : String) (ss : List String) => ?_,
    fun (h : Header) (k : String) (ss : List String) (v : JSONVal)
      (rest : List JSONVal) hv => ?_,
    fun (h : Header) (k : String) (v : JSONVal) hs ha => ?_, ?_⟩
  · refine ⟨_, headerAddStrings_map_str k ss h, by simp, fun q hq => by simp [hq]⟩
  · show headerAddStrings h k (ss.map JSONVal.str ++ v :: rest) = _
    induction ss generalizing h with
    | nil =>
      cases v with
      | str s => exact absurd rfl (hv s)
      | num x => rfl
      | bool b => rfl
      | null => rfl
      | arr l => rfl
      | obj => rfl
    | cons s tl ih => exact ih (h.add k s)
  · cases v with
    | str s => exact absurd rfl (hs s)
    | num x => rfl
    | bool b => rfl
    | null => rfl
    | arr l => exact absurd rfl (ha l)
    | obj => rfl
  · have h3 : [JSONVal.str "a", JSONVal.str "b", JSONVal.str "c"] =
        (["a", "b", "c"] : List String).map JSONVal.str := rfl
    rw [h3]
    refine ⟨_, headerAddStrings_map_str "X-Test" ["a", "b", "c"] Header.empty, by
      simp [Header.empty]⟩

/-- C6 witness: the amended theorem applied at a concrete header with a
non-string array element, and at a concrete scalar string. -/
theorem C6_header_parsing_witness :
    applyHeaderValue Header.empty "X-Test"
      (JSONVal.arr [JSONVal.str "a", JSONVal.num 7]) =
      Except.error ("invalid header " ++ "X-Test" ++ " value") := by
  have h3 : [JSONVal.str "a", JSONVal.num 7] =
      (["a"] : List String).map JSONVal.str ++ JSONVal.num 7 :: [] := rfl
  rw [h3]
  exact C6_header_parsing.2.2.1 Header.empty "X-Test" ["a"] (JSONVal.num 7) []
    (fun s h => by cases h)

/-! ### Duration JSON parsing (internal/shared, `Duration.UnmarshalJSON`)

`Duration.UnmarshalJSON` requires the text to end in `ms`, `s`, or `m` and
then delegates to `time.ParseDuration`. -/

/-- Fragment of Go `time.ParseDuration` covering inputs of the form
optional sign, digits, single unit with unit among `ms`/`s`/`m` (the full
Go function also accepts fractional and multi-component inputs, which the
properties below never need). -/
def parseGoDurationSimple (s : String) : Option GoDuration :=
  let signSplit : Bool × List Char :=
    match s.data with
    | '-' :: cs => (true, cs)
    | '+' :: cs => (false, cs)
    | cs => (false, cs)
  let digits := signSplit.2.takeWhile Char.isDigit
  let unit := signSplit.2.dropWhile Char.isDigit
  if digits = [] then none
  else
    let v : Int := Int.ofNat (digits.foldl (fun a c => a * 10 + (c.toNat - 48)) 0)
    let scale : Option Int :=
      match unit with
      | ['m', 's'] => some 1000000
      | ['s'] => some 1000000000
      | ['m'] => some 60000000000
      | _ => none
    match scale with
    | some k => some ((if signSplit.1 then -v else v) * k)
    | none => none

/-- `Duration.UnmarshalJSON` on the content of the JSON string: suffix
check over the allowed units, then `time.ParseDuration`. Note it never
rejects a negative value. -/
def durationUnmarshal (s : String) : Except String GoDuration :=
  if "ms".data.isSuffixOf s.data || "s".data.isSuffixOf s.data
      || "m".data.isSuffixOf s.data then
    match parseGoDurationSimple s with
    | some d => .ok d
    | none => .error ("invalid duration value: " ++ s)
  else
    .error "invalid duration format: must end with ms, s, or m"

example : durationUnmarshal "5s" = .ok 5000000000 := rfl
example : durationUnmarshal "-1ms" = .ok (-1000000) := rfl
example : durationUnmarshal "250ms" = .ok 250000000 := rfl
example : durationUnmarshal "5x" =
  .error "invalid duration format: must end with ms, s, or m" := rfl

/-! ### Tester service state and the POST /test handler (internal/tester)

`service` carries an atomic status (`statusReady = 0`, `statusTesting = 1`,
`statusStopping = 2`), the loaded params, the run timestamps, and the three
subsystems started at admission. We track for each subsystem whether its
start function ran. Times are `Int` nanoseconds. -/

def statusReady : Nat := 0
def statusTesting : Nat := 1
def statusStopping : Nat := 2

/-- Go `request` struct: one request template. -/
structure Request where
  method : String
  path : String
  header : Header
  body : String

/-- The zero value of `request` (`var r request`). -/
def Request.empty : Request := ⟨"", "", Header.empty, ""⟩

/-- Go `params` struct: the test configuration. `parallelTesters` is a
`uint8` (values `< 256`); durations are nanosecond counts. -/
structure TestParams where
  name : String
  duration : GoDuration
  pace : Nat
  parallelTesters : Nat
  timeout : GoDuration
  choice : String
  reqSchema : String
  reqVersion : Nat × Nat
  reqIDHeader : String
  requests : List Request

/-- The zero value of `params` (the fresh service's `s.params`). -/
def TestParams.empty : TestParams := ⟨"", 0, 0, 0, 0, "", "", (0, 0), "", []⟩

/-- The service state the POST /test handler reads and writes. -/
structure TesterState where
  status : Nat
  startedAt : Option Int
  runningUntil : Option Int
  testCtxDeadline : Option Int
  senderStarted : Bool
  idGenStarted : Bool
  testersStarted : Bool
  params : TestParams

/-- A freshly constructed service (`NewService`): status `ready`, nothing
started, zero-valued params. -/
def initialTesterState : TesterState :=
  ⟨statusReady, none, none, none, false, false, false, TestParams.empty⟩

/-- The defaulting block of `handleTest`: schema → `http`, version →
`(1,1)`, id header → `X-Request-ID` when unset. -/
def applyDefaults (p : TestParams) : TestParams :=
  { p with
    reqSchema := if p.reqSchema = "" then "http" else p.reqSchema,
    reqVersion := if p.reqVersion = (0, 0) then (1, 1) else p.reqVersion,
    reqIDHeader := if p.reqIDHeader = "" then "X-Request-ID" else p.reqIDHeader }

/-- The POST arm of `handleTest`. `body` is the result of
`json.Unmarshal(b, &s.params)`; `now` is `time.Now()` in nanoseconds. The
returned `Nat` is the HTTP status actually sent: net/http keeps the first
written header, so when the CompareAndSwap fails the `http.Error(..., 503)`
wins over the later `WriteHeader(200)`.

The source's 503 branch calls `http.Error` but does NOT return: execution
falls through, so `startedAt`, `runningUntil` and `testCtx` are overwritten
and the sender, id-generator and testers subsystems are started in both the
success and the conflict case. The model reproduces that fall-through. -/
def handleTestPost (st : TesterState) (body : Except String TestParams) (now : Int) :
    Nat × TesterState :=
  match body with
  | .error _ => (400, st)
  | .ok p0 =>
    let st1 := { st with params := p0 }
    if p0.duration < 0 then (400, st1)
    else
      let p := applyDefaults p0
      let st2 := { st1 with params := p }
      let casOk := st2.status = statusReady
      let httpStatus := if casOk then 200 else 503
      let st3 := if casOk then { st2 with status := statusTesting } else st2
      let st4 := { st3 with
        startedAt := some now,
        runningUntil := some (now + p.duration),
        testCtxDeadline := some (now + p.duration),
        senderStarted := true,
        idGenStarted := true,
        testersStarted := true }
      (httpStatus, st4)

example : (handleTestPost initialTesterState
  (.ok ⟨"t", 10, 60, 1, 10, "", "", (0, 0), "", []⟩) 0).1 = 200 := rfl
example : (handleTestPost initialTesterState (.error "bad") 0).1 = 400 := rfl

/-- C1: the concurrent-admission property fails on the code — the 503
branch of `handleTest` does not return, so a POST /test that loses the
CompareAndSwap still overwrites `startedAt`/`runningUntil`/`testCtx` and
starts the sender, id-generator and testers. Evaluated at the failing
input: a valid body posted while status is `testing`. -/
theorem C1_admission_no_early_return :
    (handleTestPost { initialTesterState with status := statusTesting }
        (Except.ok ⟨"t", 2000000000, 60, 1, 1000000000, "", "", (0, 0), "", []⟩)
        100).1 = 503 ∧
    (handleTestPost { initialTesterState with status := statusTesting }
        (Except.ok ⟨"t", 2000000000, 60, 1, 1000000000, "", "", (0, 0), "", []⟩)
        100).2.senderStarted = true ∧
    (handleTestPost { initialTesterState with status := statusTesting }
        (Except.ok ⟨"t", 2000000000, 60, 1, 1000000000, "", "", (0, 0), "", []⟩)
        100).2.idGenStarted = true ∧
    (handleTestPost { initialTesterState with status := statusTesting }
        (Except.ok ⟨"t", 2000000000, 60, 1, 1000000000, "", "", (0, 0), "", []⟩)
        100).2.testersStarted = true ∧
    (handleTestPost { initialTesterState with status := statusTesting }
        (Except.ok ⟨"t", 2000000000, 60, 1, 1000000000, "", "", (0, 0), "", []⟩)
        100).2.startedAt = some 100 ∧
    ({ initialTesterState with status := statusTesting } : TesterState).startedAt
        = none :=
  ⟨rfl, rfl, rfl, rfl, rfl, rfl⟩

/-- C4 counterexample: `"-1ms"` passes the Duration JSON boundary, and a
configuration with `duration = 0` but `timeout = -1ms` is admitted with
HTTP 200 even though its timeout is negative. -/
theorem C4_negative_timeout_counterexample :
    durationUnmarshal "-1ms" = Except.ok (-1000000) ∧
    (handleTestPost initialTesterState
        (Except.ok ⟨"t", 0, 60, 1, -1000000, "", "", (0, 0), "", []⟩) 0).1 = 200 ∧
    ((-1000000 : Int) < 0) :=
  ⟨rfl, rfl, by decide⟩

/-- C4 (amended): only the `duration` field is validated at the POST /test
boundary — a parsed configuration is answered 400 exactly when
`duration < 0`, and every admitted (200) configuration has `duration ≥ 0`;
`timeout` is never checked and may be negative. -/
theorem C4_duration_validation (st : TesterState) (p : TestParams) (now : Int) :
    ((handleTestPost st (Except.ok p) now).1 = 400 ↔ p.duration < 0) ∧
    (p.duration < 0 →
      handleTestPost st (Except.ok p) now = (400, { st with params := p })) ∧
    ((handleTestPost st (Except.ok p) now).1 = 200 → 0 ≤ p.duration) := by
  by_cases hd : p.duration < 0
  · refine ⟨⟨fun _ => hd, fun _ => ?_⟩, fun _ => ?_, fun h200 => ?_⟩
    · simp [handleTestPost, hd]
    · simp [handleTestPost, hd]
    · simp [handleTestPost, hd] at h200
  · refine ⟨⟨fun h400 => ?_, fun h => absurd h hd⟩, fun h => absurd h hd,
      fun _ => le_of_not_lt hd⟩
    by_cases hc : st.status = statusReady <;>
      simp [handleTestPost, hd, hc] at h400

/-- C4 witness: the amended theorem at a concrete admitted configuration. -/
theorem C4_duration_validation_witness :
    ((handleTestPost initialTesterState
        (Except.ok ⟨"t", 0, 60, 1, -1000000, "", "", (0, 0), "", []⟩) 0).1 = 200 →
      (0 : Int) ≤ 0) :=
  (C4_duration_validation initialTesterState
    ⟨"t", 0, 60, 1, -1000000, "", "", (0, 0), "", []⟩ 0).2.2

/-! ### Results channel capacity (`startSender`)

`make(chan shared.TestResult, s.params.ParallelTesters*resultsBufferSize)`:
`ParallelTesters` is a `uint8` and the untyped constant `resultsBufferSize`
converts to `uint8`, so the product is computed in 8-bit arithmetic and
truncates modulo 2^8 before reaching `make`. -/

def idsBufferSize : Nat := 100
def resultsBufferSize : Nat := 20

/-- The capacity of the results channel created in `startSender`, as a
function of the `parallelTesters` value (a `uint8`, `< 256`). -/
def resultsChanCap (parallelTesters : Nat) : Nat :=
  (parallelTesters * resultsBufferSize) % 256

example : resultsChanCap 1 = 20 := rfl
example : resultsChanCap 12 = 240 := rfl
example : resultsChanCap 13 = 4 := rfl

/-- C2 counterexample: at `parallelTesters = 13` the channel capacity is
`(13 × 20) mod 256 = 4`, not `260`. -/
theorem C2_results_capacity_counterexample :
    resultsChanCap 13 = 4 ∧ (4 : Nat) ≠ 13 * 20 := by decide

/-- C2 (amended): the results channel capacity is `(N × 20) mod 256` — Go
uint8 arithmetic — which equals `N × 20` exactly when `N ≤ 12`; for
`13 ≤ N < 256` the product wraps. -/
theorem C2_results_capacity (n : Nat) (h : n < 256) :
    resultsChanCap n = n * 20 ↔ n ≤ 12 := by
  simp only [resultsChanCap, resultsBufferSize]
  omega

/-- C2 witness: the amended theorem applied at `N = 5`. -/
theorem C2_results_capacity_witness : resultsChanCap 5 = 5 * 20 ↔ 5 ≤ 12 :=
  C2_results_capacity 5 (by norm_num)

/-! ### Worker record emission (`runTesters`, per-iteration result)

After `client.Do`, the worker classifies the outcome: an error satisfying
`errors.Is(err, context.DeadlineExceeded)` marks `TimedOut=true`; any other
error only logs — `tRes` keeps its zero value in that column; a returned
response marks `TimedOut=false` and later stores its status code. -/

/-- The outcome of one `client.Do` call. -/
inductive ReqOutcome where
  | timedOut
  | transportErr
  | response (code : Nat)

/-- The record built by one worker iteration, following the statement order
of the source: zero value, SetRequestTime, the error classification, the
six metadata setters, and SetResponseCode only when a response exists. -/
def emitRecord (outcome : ReqOutcome) (startText name idText : String)
    (globalN : Nat) (method path : String) (elapsed : GoDuration) : TestResult :=
  let t1 := TestResult.empty.setRequestTime startText
  let t2 :=
    match outcome with
    | .timedOut => t1.setTimedOut true
    | .transportErr => t1
    | .response _ => t1.setTimedOut false
  let t3 := ((((t2.setTestName name).setRequestID idText).setRequestNum
      globalN).setRequesMethod method).setRequestPath path
  let t4 := t3.setRoundDuration elapsed
  match outcome with
  | .response code => t4.setResponseCode code
  | _ => t4

/-- C3 counterexample: on a non-deadline transport error the emitted record
has `TimedOut = ""` (the zero value), which is neither `"false"` nor
`"true"`. -/
theorem C3_timedout_counterexample :
    (emitRecord .transportErr "2025-01-01 00:00:00" "t" "id" 1 "GET" "/x" 0).timedOut
      = "" ∧
    ("" : String) ≠ "false" ∧ ("" : String) ≠ "true" :=
  ⟨rfl, by decide, by decide⟩

/-- C3 (amended): a deadline-exceeded error yields `TimedOut="true"` with
empty `RespCode`; a response yields `TimedOut="false"` and the decimal
status code; any other transport error leaves `TimedOut` as the empty
string (the unset zero value, not `"false"`) with empty `RespCode`. -/
theorem C3_record_classification (startText name idText : String) (globalN : Nat)
    (method path : String) (elapsed : GoDuration) :
    ((emitRecord .timedOut startText name idText globalN method path elapsed).timedOut
        = "true" ∧
      (emitRecord .timedOut startText name idText globalN method path elapsed).respCode
        = "") ∧
    ((emitRecord .transportErr startText name idText globalN method path elapsed).timedOut
        = "" ∧
      (emitRecord .transportErr startText name idText globalN method path elapsed).respCode
        = "") ∧
    (∀ code,
      (emitRecord (.response code) startText name idText globalN method path
          elapsed).timedOut = "false" ∧
      (emitRecord (.response code) startText name idText globalN method path
          elapsed).respCode = Nat.repr code) :=
  ⟨⟨rfl, rfl⟩, ⟨rfl, rfl⟩, fun _ => ⟨rfl, rfl⟩⟩

/-! ### Worker spin-up delay (`runTesters`)

`spinup := duration.Nanoseconds() / spinupFactor`, capped at
`spinupMaxDuration`, divided by `ParallelTesters`, and each worker sleeps
`rand.Int64N(spinup)`. Two Go faults are modelled as `none`: integer
division by zero when `ParallelTesters = 0`, and the `rand.Int64N` panic
when its bound is not positive. `duration ≥ 0` holds at this point (the
handler validated it), so the computation stays in `Nat`. -/

def spinupFactor : Nat := 4
def spinupMaxDuration : Nat := 10000000000

/-- The bound handed to `rand.Int64N` for the per-worker spin-up sleep;
each worker's delay is uniform in `[0, bound)`. `none` models the two
panics. -/
def spinupDelayBound (durationNs parallelTesters : Nat) : Option Nat :=
  let spinup := durationNs / spinupFactor
  let spinup := if spinup > spinupMaxDuration then spinupMaxDuration else spinup
  if parallelTesters = 0 then none
  else
    let spinup := spinup / parallelTesters
    if spinup = 0 then none else some spinup

example : spinupDelayBound 40000000000 2 = some 5000000000 := rfl
example : spinupDelayBound 80000000000 1 = some 10000000000 := rfl

/-- C8 counterexample: the admitted configuration `duration = 0`,
`parallelTesters = 1` (duration ≥ 0 passes validation) makes the spin-up
computation fault — `rand.Int64N(0)` panics. -/
theorem C8_spinup_counterexample : spinupDelayBound 0 1 = none := rfl

/-- C8 (amended): the spin-up delay computation is total only when
`N ≥ 1` and `min(duration/4, 10s)/N ≥ 1ns`; under those conditions the
bound equals `min(duration/4, 10s) / N`, is positive, and every drawable
delay lies in `[0, spinup/N]`; at `N = 0` the computation always faults
(division by zero), and at `spinup/N = 0` `rand.Int64N` panics. -/
theorem C8_spinup_range (d n : Nat) (h1 : 1 ≤ n)
    (h2 : n ≤ min (d / spinupFactor) spinupMaxDuration) :
    (∃ b, spinupDelayBound d n = some b ∧ 0 < b ∧
      b = min (d / spinupFactor) spinupMaxDuration / n ∧
      ∀ delay, delay < b → delay ≤ min (d / spinupFactor) spinupMaxDuration / n) ∧
    spinupDelayBound d 0 = none := by
  constructor
  · have hcap : (if d / spinupFactor > spinupMaxDuration then spinupMaxDuration
        else d / spinupFactor) = min (d / spinupFactor) spinupMaxDuration := by
      split_ifs with hgt
      · omega
      · omega
    have hpos : 0 < min (d / spinupFactor) spinupMaxDuration / n :=
      Nat.div_pos h2 (by omega)
    refine ⟨min (d / spinupFactor) spinupMaxDuration / n, ?_, hpos, rfl,
      fun delay hlt => Nat.le_of_lt hlt⟩
    simp only [spinupDelayBound, hcap]
    have hn : ¬(n = 0) := by omega
    simp only [hn, if_false]
    simp [Nat.pos_iff_ne_zero.mp hpos]
  · simp [spinupDelayBound]

/-- C8 witness: the amended theorem at `duration = 40s`, `N = 2`. -/
theorem C8_spinup_range_witness :
    (∃ b, spinupDelayBound 40000000000 2 = some b ∧ 0 < b ∧
      b = min (40000000000 / spinupFactor) spinupMaxDuration / 2 ∧
      ∀ delay, delay < b →
        delay ≤ min (40000000000 / spinupFactor) spinupMaxDuration / 2) ∧
    spinupDelayBound 40000000000 0 = none :=
  C8_spinup_range 40000000000 2 (by norm_num) (by norm_num [spinupFactor, spinupMaxDuration])

/-! ### Worker request selection (`runTesters` loop body)

Each iteration increments the per-worker counter `localN` and then, when
more than one template is configured, switches on `choice`:
`roundrobin` indexes `Requests[localN % n]`, `random` indexes a PRNG draw,
and any other value matches no case, leaving `r` unchanged. `r` is declared
with the zero value and persists across iterations. The `n = 0` arms (Go
would panic on `% 0` / `IntN(0)`) are outside the domain the properties
use. -/

/-- One execution of the template-selection block, with `prev` the incumbent
value of `r`. `randIdx` models the `randSrc.IntN(n)` draw (reduced mod `n`
to stay in the `[0, n)` range the PRNG guarantees). -/
def pickRequest (requests : List Request) (ch : String) (localN randIdx : Nat)
    (prev : Request) : Request :=
  if requests.length = 1 then requests.getD 0 prev
  else if ch = "roundrobin" then requests.getD (localN % requests.length) prev
  else if ch = "random" then requests.getD (randIdx % requests.length) prev
  else prev

/-- The value of `r` after iteration `k` of one worker's loop (`localN = k`
at iteration `k`, counting from 1; `r` starts as the zero value). `rnd`
supplies the PRNG draws. -/
def workerRequestAt (requests : List Request) (ch : String) (rnd : Nat → Nat) :
    Nat → Request
  | 0 => Request.empty
  | k + 1 => pickRequest requests ch (k + 1) (rnd (k + 1))
      (workerRequestAt requests ch rnd k)

/-- `List.getD` at an in-range index does not depend on the default. -/
theorem getD_eq_of_lt {α : Type} (l : List α) (i : Nat) (d1 d2 : α)
    (h : i < l.length) : l.getD i d1 = l.getD i d2 := by
  induction l generalizing i with
  | nil => simp at h
  | cons a tl ih =>
    cases i with
    | zero => rfl
    | succ j => exact ih j (by simpa using h)

/-- C7: with a single template every iteration uses it; with ≥ 2 templates
and `choice = roundrobin` iteration `k` (whose `localN` is `k`) uses index
`k mod len(requests)`; with two templates a,b the selected template is `b`
for odd `k` and `a` for even `k`, so consecutive records alternate and from
the second record onward the sequence reads a,b,a,b,... -/
theorem C7_request_selection (rnd : Nat → Nat) :
    (∀ (req : Request) (ch : String) (k : Nat), 1 ≤ k →
        workerRequestAt [req] ch rnd k = req) ∧
    (∀ (reqs : List Request) (k : Nat), 2 ≤ reqs.length → 1 ≤ k →
        workerRequestAt reqs "roundrobin" rnd k =
          reqs.getD (k % reqs.length) Request.empty) ∧
    (∀ (a b : Request) (k : Nat), 1 ≤ k →
        workerRequestAt [a, b] "roundrobin" rnd k =
          if k % 2 = 1 then b else a) ∧
    (∀ (a b : Request) (j : Nat), 1 ≤ j →
        workerRequestAt [a, b] "roundrobin" rnd (2 * j) = a ∧
        workerRequestAt [a, b] "roundrobin" rnd (2 * j + 1) = b) := by
  have hsel : ∀ (a b : Request) (k : Nat), 1 ≤ k →
      workerRequestAt [a, b] "roundrobin" rnd k = if k % 2 = 1 then b else a := by
    intro a b k hk
    match k, hk with
    | j + 1, _ =>
      show pickRequest [a, b] "roundrobin" (j + 1) (rnd (j + 1)) _ = _
      have hlen : ([a, b] : List Request).length = 2 := rfl
      rcases Nat.mod_two_eq_zero_or_one (j + 1) with hm | hm <;>
        simp [pickRequest, hlen, hm]
  refine ⟨fun req ch k hk => ?_, fun reqs k h2 hk => ?_, hsel, fun a b j hj => ?_⟩
  · match k, hk with
    | j + 1, _ =>
      show pickRequest [req] ch (j + 1) (rnd (j + 1)) _ = _
      simp [pickRequest]
  · match k, hk with
    | j + 1, _ =>
      show pickRequest reqs "roundrobin" (j + 1) (rnd (j + 1)) _ = _
      have hne : ¬(reqs.length = 1) := by omega
      simp only [pickRequest, hne, if_false, if_pos rfl]
      exact getD_eq_of_lt reqs _ _ _ (Nat.mod_lt _ (by omega))
  · constructor
    · rw [hsel a b (2 * j) (by omega)]
      have hm : (2 * j) % 2 = 0 := by omega
      simp [hm]
    · rw [hsel a b (2 * j + 1) (by omega)]
      have hm : (2 * j + 1) % 2 = 1 := by omega
      simp [hm]

/-- C7 witness: the selection at the concrete two-template list /a,/b for
records 2 and 3, via the theorem. -/
theorem C7_request_selection_witness :
    workerRequestAt [⟨"GET", "/a", Header.empty, ""⟩, ⟨"GET", "/b", Header.empty, ""⟩]
        "roundrobin" (fun _ => 0) 2 = ⟨"GET", "/a", Header.empty, ""⟩ ∧
    workerRequestAt [⟨"GET", "/a", Header.empty, ""⟩, ⟨"GET", "/b", Header.empty, ""⟩]
        "roundrobin" (fun _ => 0) 3 = ⟨"GET", "/b", Header.empty, ""⟩ := by
  have h := (C7_request_selection (fun _ => 0)).2.2.2
    ⟨"GET", "/a", Header.empty, ""⟩ ⟨"GET", "/b", Header.empty, ""⟩ 1 (le_refl 1)
  exact ⟨h.1, h.2⟩

/-- C10: when the choice field is empty (absent from the JSON, hence never
validated) and at least two templates are configured, no switch case
matches, so every iteration of the worker loop keeps the zero-valued
template — empty method, path, headers and body — for the whole run. -/
theorem C10_empty_choice_zero_template (reqs : List Request) (rnd : Nat → Nat)
    (h : 2 ≤ reqs.length) :
    ∀ k, workerRequestAt reqs "" rnd k = Request.empty := by
  intro k
  induction k with
  | zero => rfl
  | succ j ih =>
    show pickRequest reqs "" (j + 1) (rnd (j + 1)) (workerRequestAt reqs "" rnd j) = _
    rw [ih]
    have hne : ¬(reqs.length = 1) := by omega
    simp [pickRequest, hne]

/-- C10 witness: the theorem at a concrete two-template list, iteration 3. -/
theorem C10_empty_choice_zero_template_witness :
    workerRequestAt [⟨"GET", "/a", Header.empty, ""⟩, ⟨"GET", "/b", Header.empty, ""⟩]
      "" (fun _ => 0) 3 = Request.empty :=
  C10_empty_choice_zero_template
    [⟨"GET", "/a", Header.empty, ""⟩, ⟨"GET", "/b", Header.empty, ""⟩]
    (fun _ => 0) (by simp) 3

end HRTester
